import Mathlib

/-!
Verification of the widepay_migrator loan-migration core against its
natural-language specification.

The Python source is shallowly embedded: machine floats are modelled as
rationals (the settlement arithmetic uses only +, -, abs and comparisons),
SQL NULL is modelled with `Option`, and each relevant code path is
translated into an executable Lean definition keeping the source's names.
-/

namespace Widepay

/-- Python's `float(x or 0)` applied to a nullable numeric column:
`None` (and `0`) collapse to `0`. -/
def orZero : Option ℚ → ℚ
  | none => 0
  | some q => q

@[simp] theorem orZero_none : orZero none = 0 := rfl

@[simp] theorem orZero_some (q : ℚ) : orZero (some q) = q := rfl

/-! ## Transaction settlement engine (`custom_helper.settle_transactions`)

One row of `loan_transactions` as read and written by the engine
(`SELECT id, loan_transaction_type_id, principal_repaid_derived,
interest_repaid_derived, penalties_repaid_derived, amount ... ORDER BY id`;
the `UPDATE` writes the four balance columns and, for types 1 and 10,
zeroes the two repaid columns). -/
structure LoanTx where
  id : ℕ
  loan_transaction_type_id : Option ℤ
  principal_repaid_derived : Option ℚ
  interest_repaid_derived : Option ℚ
  penalties_repaid_derived : Option ℚ
  amount : Option ℚ
  principal_balance : Option ℚ
  interest_balance : Option ℚ
  penalties_balance : Option ℚ
  total_balance : Option ℚ
  deriving Repr, DecidableEq

/-- The three running balances maintained by `settle_transactions`. -/
structure Balances where
  principal : ℚ
  interest : ℚ
  penalties : ℚ
  deriving Repr, DecidableEq

/-- One iteration of the settlement loop: update the running balances
according to the transaction type (lines 113-138 of `custom_helper.py`). -/
def settleStep (b : Balances) (tx : LoanTx) : Balances :=
  if tx.loan_transaction_type_id = some 10 then
    { b with penalties := b.penalties + orZero tx.amount }
  else if tx.loan_transaction_type_id = some 1 then
    { principal := orZero tx.principal_repaid_derived
      interest := orZero tx.interest_repaid_derived
      penalties := b.penalties }
  else if tx.loan_transaction_type_id = some 2 ∨
          tx.loan_transaction_type_id = some 6 then
    { principal := b.principal - orZero tx.principal_repaid_derived
      interest := b.interest - orZero tx.interest_repaid_derived
      penalties := b.penalties - orZero tx.penalties_repaid_derived }
  else b

/-- The `UPDATE` executed for one transaction: write the four balance
columns from the running balances and, when the type is 1 or 10
(`clear_repaid`), zero `principal_repaid_derived` and
`interest_repaid_derived` (lines 140-171 of `custom_helper.py`). -/
def settleWrite (b : Balances) (tx : LoanTx) : LoanTx :=
  let t := { tx with
    principal_balance := some b.principal
    interest_balance := some b.interest
    penalties_balance := some b.penalties
    total_balance := some (b.principal + b.interest + b.penalties) }
  if tx.loan_transaction_type_id = some 1 ∨
     tx.loan_transaction_type_id = some 10 then
    { t with principal_repaid_derived := some 0
             interest_repaid_derived := some 0 }
  else t

/-- The per-loan settlement loop starting from running balances `b`:
for each transaction in order, update the balances and rewrite the row. -/
def settleTransactionsAux (b : Balances) : List LoanTx → List LoanTx
  | [] => []
  | tx :: rest =>
      let b' := settleStep b tx
      settleWrite b' tx :: settleTransactionsAux b' rest

/-- `settle_transactions` restricted to one loan's ordered transaction
list: running balances start at 0 (lines 94-171 of `custom_helper.py`). -/
def settle_transactions (txs : List LoanTx) : List LoanTx :=
  settleTransactionsAux ⟨0, 0, 0⟩ txs

/-- Running balances obtained by replaying a transaction list from `b`. -/
def balancesAfterFrom (b : Balances) (txs : List LoanTx) : Balances :=
  txs.foldl settleStep b

/-- Running balances after replaying a transaction list from zero. -/
def balancesAfter (txs : List LoanTx) : Balances :=
  balancesAfterFrom ⟨0, 0, 0⟩ txs

theorem length_settleTransactionsAux (b : Balances) (txs : List LoanTx) :
    (settleTransactionsAux b txs).length = txs.length := by
  induction txs generalizing b with
  | nil => rfl
  | cons tx rest ih => simp [settleTransactionsAux, ih]

theorem settleTransactionsAux_getElem (b : Balances) (txs : List LoanTx)
    (k : ℕ) (hk : k < txs.length) :
    (settleTransactionsAux b txs)[k]? =
      some (settleWrite (balancesAfterFrom b (txs.take (k + 1))) (txs.get ⟨k, hk⟩)) := by
  induction txs generalizing b k with
  | nil => exact absurd hk (by simp)
  | cons tx rest ih =>
      cases k with
      | zero => simp [settleTransactionsAux, balancesAfterFrom]
      | succ n =>
          have hn : n < rest.length := by simpa using hk
          simp [settleTransactionsAux, balancesAfterFrom, ih (settleStep b tx) n hn]

theorem balancesAfterFrom_take_succ (b : Balances) (txs : List LoanTx)
    (k : ℕ) (hk : k < txs.length) :
    balancesAfterFrom b (txs.take (k + 1)) =
      settleStep (balancesAfterFrom b (txs.take k)) (txs.get ⟨k, hk⟩) := by
  induction txs generalizing b k with
  | nil => exact absurd hk (by simp)
  | cons tx rest ih =>
      cases k with
      | zero => simp [balancesAfterFrom]
      | succ n =>
          have hn : n < rest.length := by simpa using hk
          simp [balancesAfterFrom] at ih ⊢
          exact ih (settleStep b tx) n hn

theorem settleWrite_type (b : Balances) (tx : LoanTx) :
    (settleWrite b tx).loan_transaction_type_id = tx.loan_transaction_type_id := by
  unfold settleWrite
  split <;> rfl

theorem settleWrite_amount (b : Balances) (tx : LoanTx) :
    (settleWrite b tx).amount = tx.amount := by
  unfold settleWrite
  split <;> rfl

theorem settleWrite_penalties_repaid (b : Balances) (tx : LoanTx) :
    (settleWrite b tx).penalties_repaid_derived = tx.penalties_repaid_derived := by
  unfold settleWrite
  split <;> rfl

theorem settleStep_settleWrite (b b' : Balances) (tx : LoanTx)
    (h : tx.loan_transaction_type_id = some 1 →
      orZero tx.principal_repaid_derived = 0 ∧ orZero tx.interest_repaid_derived = 0) :
    settleStep b (settleWrite b' tx) = settleStep b tx := by
  by_cases h10 : tx.loan_transaction_type_id = some 10
  · simp [settleStep, settleWrite_type, settleWrite_amount, h10]
  · by_cases h1 : tx.loan_transaction_type_id = some 1
    · obtain ⟨hp, hi⟩ := h h1
      simp [settleStep, settleWrite, h1, hp, hi]
    · by_cases h26 : tx.loan_transaction_type_id = some 2 ∨
          tx.loan_transaction_type_id = some 6
      · have hw1 : ¬(tx.loan_transaction_type_id = some 1 ∨
            tx.loan_transaction_type_id = some 10) := by
          rintro (h' | h') <;> simp_all
        simp [settleStep, settleWrite, settleWrite_type, h10, h1, h26, hw1]
      · simp [settleStep, settleWrite_type, h10, h1, h26]

theorem settleWrite_settleWrite (b : Balances) (tx : LoanTx) :
    settleWrite b (settleWrite b tx) = settleWrite b tx := by
  by_cases h : tx.loan_transaction_type_id = some 1 ∨
      tx.loan_transaction_type_id = some 10 <;>
    simp [settleWrite, h]

theorem settleTransactionsAux_reapply (b : Balances) (txs : List LoanTx)
    (h : ∀ tx ∈ txs, tx.loan_transaction_type_id = some 1 →
      orZero tx.principal_repaid_derived = 0 ∧ orZero tx.interest_repaid_derived = 0) :
    settleTransactionsAux b (settleTransactionsAux b txs) = settleTransactionsAux b txs := by
  induction txs generalizing b with
  | nil => rfl
  | cons tx rest ih =>
      have htx := h tx (List.mem_cons_self tx rest)
      have hstep :
          settleStep b (settleWrite (settleStep b tx) tx) = settleStep b tx :=
        settleStep_settleWrite b (settleStep b tx) tx htx
      simp only [settleTransactionsAux, hstep, settleWrite_settleWrite]
      exact congrArg _ (ih (settleStep b tx) fun t ht => h t (List.mem_cons_of_mem _ ht))

/-- A disbursement transaction as the migration would produce it: type 1
with nonzero `principal_repaid_derived` and `interest_repaid_derived`,
balances not yet written. -/
def disburseTx : LoanTx :=
  { id := 1
    loan_transaction_type_id := some 1
    principal_repaid_derived := some 5
    interest_repaid_derived := some 3
    penalties_repaid_derived := none
    amount := some 5
    principal_balance := none
    interest_balance := none
    penalties_balance := none
    total_balance := none }

/-- C1 counterexample: re-running `settle_transactions` on the rows it has
already written does NOT reproduce the same balance columns.  The first run
sets `principal_balance = 5` from the disbursement's
`principal_repaid_derived` and then zeroes that column, so the second run
sets `principal_balance = 0`. -/
theorem settle_transactions_not_idempotent :
    (settle_transactions (settle_transactions [disburseTx])).map
        LoanTx.principal_balance ≠
      (settle_transactions [disburseTx]).map LoanTx.principal_balance := by
  decide

/-- C1 (amended): given a fixed ordered transaction list for one loan,
re-running the settlement engine produces identical rows (in particular
identical principal/interest/penalties/total balance columns) provided
every disbursement (type-1) transaction carries zero
`principal_repaid_derived` and `interest_repaid_derived`; this always holds
for the output of a previous run, so from the second application onward the
engine changes nothing.  Without that proviso the claim fails
(`settle_transactions_not_idempotent`): the engine zeroes the repaid
columns on type-1/type-10 rows and the disbursement replay reads them. -/
theorem settle_transactions_reapplication (txs : List LoanTx)
    (h : ∀ tx ∈ txs, tx.loan_transaction_type_id = some 1 →
      orZero tx.principal_repaid_derived = 0 ∧ orZero tx.interest_repaid_derived = 0) :
    settle_transactions (settle_transactions txs) = settle_transactions txs :=
  settleTransactionsAux_reapply ⟨0, 0, 0⟩ txs h

/-- A repayment transaction used as a witness input. -/
def repayTx : LoanTx :=
  { id := 2
    loan_transaction_type_id := some 2
    principal_repaid_derived := some 4
    interest_repaid_derived := some 1
    penalties_repaid_derived := some 0
    amount := some 5
    principal_balance := none
    interest_balance := none
    penalties_balance := none
    total_balance := none }

/-- A disbursement transaction whose repaid columns are already zero. -/
def disburseTxZero : LoanTx :=
  { disburseTx with
    principal_repaid_derived := some 0
    interest_repaid_derived := none }

/-- Witness for `settle_transactions_reapplication` at a concrete
two-transaction log whose disbursement has zero repaid columns. -/
theorem settle_transactions_reapplication_witness :
    (∀ tx ∈ [disburseTxZero, repayTx],
        tx.loan_transaction_type_id = some 1 →
          orZero tx.principal_repaid_derived = 0 ∧
          orZero tx.interest_repaid_derived = 0) ∧
      settle_transactions (settle_transactions [disburseTxZero, repayTx]) =
        settle_transactions [disburseTxZero, repayTx] :=
  ⟨by decide, settle_transactions_reapplication _ (by decide)⟩

/-- C3: the settlement replay updates the running balances per target
type exactly as specified — type 10 adds `amount` to the penalties
balance; type 1 resets the principal/interest balances to the
transaction's own repaid columns (penalties kept); types 2 and 6 subtract
the transaction's repaid columns; any other type leaves the balances
unchanged — and after each step the four balances, with
`total = principal + interest + penalties`, are written onto that
transaction row. -/
theorem settle_transactions_per_type (txs : List LoanTx) (k : ℕ)
    (hk : k < txs.length) :
    ∃ out, (settle_transactions txs)[k]? = some out ∧
      ((txs.get ⟨k, hk⟩).loan_transaction_type_id = some 10 →
        balancesAfter (txs.take (k + 1)) =
          ⟨(balancesAfter (txs.take k)).principal,
           (balancesAfter (txs.take k)).interest,
           (balancesAfter (txs.take k)).penalties +
             orZero (txs.get ⟨k, hk⟩).amount⟩) ∧
      ((txs.get ⟨k, hk⟩).loan_transaction_type_id = some 1 →
        balancesAfter (txs.take (k + 1)) =
          ⟨orZero (txs.get ⟨k, hk⟩).principal_repaid_derived,
           orZero (txs.get ⟨k, hk⟩).interest_repaid_derived,
           (balancesAfter (txs.take k)).penalties⟩) ∧
      (((txs.get ⟨k, hk⟩).loan_transaction_type_id = some 2 ∨
          (txs.get ⟨k, hk⟩).loan_transaction_type_id = some 6) →
        balancesAfter (txs.take (k + 1)) =
          ⟨(balancesAfter (txs.take k)).principal -
             orZero (txs.get ⟨k, hk⟩).principal_repaid_derived,
           (balancesAfter (txs.take k)).interest -
             orZero (txs.get ⟨k, hk⟩).interest_repaid_derived,
           (balancesAfter (txs.take k)).penalties -
             orZero (txs.get ⟨k, hk⟩).penalties_repaid_derived⟩) ∧
      ((txs.get ⟨k, hk⟩).loan_transaction_type_id ≠ some 10 →
        (txs.get ⟨k, hk⟩).loan_transaction_type_id ≠ some 1 →
        (txs.get ⟨k, hk⟩).loan_transaction_type_id ≠ some 2 →
        (txs.get ⟨k, hk⟩).loan_transaction_type_id ≠ some 6 →
        balancesAfter (txs.take (k + 1)) = balancesAfter (txs.take k)) ∧
      out.principal_balance = some (balancesAfter (txs.take (k + 1))).principal ∧
      out.interest_balance = some (balancesAfter (txs.take (k + 1))).interest ∧
      out.penalties_balance = some (balancesAfter (txs.take (k + 1))).penalties ∧
      out.total_balance = some ((balancesAfter (txs.take (k + 1))).principal +
        (balancesAfter (txs.take (k + 1))).interest +
        (balancesAfter (txs.take (k + 1))).penalties) := by
  have hsucc : balancesAfter (txs.take (k + 1)) =
      settleStep (balancesAfter (txs.take k)) (txs.get ⟨k, hk⟩) :=
    balancesAfterFrom_take_succ ⟨0, 0, 0⟩ txs k hk
  refine ⟨settleWrite (balancesAfter (txs.take (k + 1))) (txs.get ⟨k, hk⟩),
    settleTransactionsAux_getElem ⟨0, 0, 0⟩ txs k hk, ?_, ?_, ?_, ?_, ?_, ?_, ?_, ?_⟩
  · intro h10
    rw [hsucc]
    simp only [List.get_eq_getElem] at h10 ⊢
    simp [settleStep, h10]
  · intro h1
    rw [hsucc]
    simp only [List.get_eq_getElem] at h1 ⊢
    simp [settleStep, h1]
  · intro h26
    simp only [List.get_eq_getElem] at h26
    have h10 : txs[k].loan_transaction_type_id ≠ some 10 := by
      rcases h26 with h | h <;> simp [h]
    have h1 : txs[k].loan_transaction_type_id ≠ some 1 := by
      rcases h26 with h | h <;> simp [h]
    rw [hsucc]
    simp only [List.get_eq_getElem]
    simp [settleStep, h10, h1, h26]
  · intro h10 h1 h2 h6
    simp only [List.get_eq_getElem] at h10 h1 h2 h6
    rw [hsucc]
    simp only [List.get_eq_getElem]
    simp [settleStep, h10, h1, h2, h6]
  · unfold settleWrite
    split <;> rfl
  · unfold settleWrite
    split <;> rfl
  · unfold settleWrite
    split <;> rfl
  · unfold settleWrite
    split <;> rfl

/-- Witness for `settle_transactions_per_type` at the concrete
two-transaction log `[disburseTx, repayTx]`, position 1. -/
theorem settle_transactions_per_type_witness :
    1 < ([disburseTx, repayTx] : List LoanTx).length ∧
      ∃ out, (settle_transactions [disburseTx, repayTx])[1]? = some out ∧
        out.total_balance =
          some ((balancesAfter ([disburseTx, repayTx].take 2)).principal +
            (balancesAfter ([disburseTx, repayTx].take 2)).interest +
            (balancesAfter ([disburseTx, repayTx].take 2)).penalties) := by
  refine ⟨by decide, ?_⟩
  obtain ⟨out, hout, -, -, -, -, -, -, -, htotal⟩ :=
    settle_transactions_per_type [disburseTx, repayTx] 1 (by decide)
  exact ⟨out, hout, htotal⟩

/-! ## Governorate extraction (`custom_helper.get_governorate_from_national_id`)

The function slices characters 8-9 out of a 14-character national id and
feeds them to Python's `int()`.  We embed `int()` on short ASCII strings:
surrounding whitespace is stripped, then an optional single sign is
followed by a nonempty run of decimal digits.  (Full Python `int()` also
accepts underscores between digits — impossible in a two-character slice —
and non-ASCII digits, which national ids do not contain.) -/

/-- ASCII decimal digit test (codepoints 48-57), as used by `int()`. -/
def isDigitChar (c : Char) : Bool := decide (48 ≤ c.toNat ∧ c.toNat ≤ 57)

/-- Whitespace stripped by Python's `int()`: space, tab, LF, VT, FF, CR. -/
def pyWhitespace (c : Char) : Bool :=
  decide (c.toNat = 32 ∨ c.toNat = 9 ∨ c.toNat = 10 ∨ c.toNat = 11 ∨
    c.toNat = 12 ∨ c.toNat = 13)

/-- Value of a nonempty all-digit character run, else `none`. -/
def digitsNat (l : List Char) : Option ℕ :=
  if l = [] then none
  else if l.all isDigitChar then
    some (l.foldl (fun acc c => 10 * acc + (c.toNat - 48)) 0)
  else none

/-- Optional sign followed by digits. -/
def pyIntCore (l : List Char) : Option ℤ :=
  match l with
  | [] => none
  | c :: rest =>
      if c = '+' then (digitsNat rest).map (fun n => (n : ℤ))
      else if c = '-' then (digitsNat rest).map (fun n => -(n : ℤ))
      else (digitsNat (c :: rest)).map (fun n => (n : ℤ))

/-- Strip `pyWhitespace` from both ends of a character list. -/
def pyStrip (l : List Char) : List Char :=
  ((l.dropWhile pyWhitespace).reverse.dropWhile pyWhitespace).reverse

/-- Python's `int(s)` on a short ASCII string (see section comment). -/
def pyInt (l : List Char) : Option ℤ := pyIntCore (pyStrip l)

/-- `get_governorate_from_national_id` (`custom_helper.py` lines 8-32):
reject empty or non-14-character ids, special-case governorate code "88"
to 1, otherwise `int()` of the code with `ValueError` mapped to `None`. -/
def get_governorate_from_national_id (s : String) : Option ℤ :=
  if s.length = 0 ∨ s.length ≠ 14 then none
  else
    let gov := (s.toList.drop 7).take 2
    if gov = ['8', '8'] then some 1
    else pyInt gov

theorem pyWhitespace_of_isDigitChar (c : Char)
    (h : isDigitChar c = true) : pyWhitespace c = false := by
  simp [isDigitChar] at h
  simp [pyWhitespace]
  omega

theorem ne_plus_of_isDigitChar (c : Char) (h : isDigitChar c = true) :
    c ≠ '+' := by
  intro hc
  subst hc
  exact absurd h (by decide)

theorem ne_minus_of_isDigitChar (c : Char) (h : isDigitChar c = true) :
    c ≠ '-' := by
  intro hc
  subst hc
  exact absurd h (by decide)

theorem pyInt_two_digits (a b : Char) (ha : isDigitChar a = true)
    (hb : isDigitChar b = true) :
    pyInt [a, b] = some ((10 * (a.toNat - 48) + (b.toNat - 48) : ℕ) : ℤ) := by
  have hwa := pyWhitespace_of_isDigitChar a ha
  have hwb := pyWhitespace_of_isDigitChar b hb
  have hstrip : pyStrip [a, b] = [a, b] := by
    simp [pyStrip, List.dropWhile, hwa, hwb]
  rw [pyInt, hstrip, pyIntCore]
  simp [ne_plus_of_isDigitChar a ha, ne_minus_of_isDigitChar a ha,
    digitsNat, ha, hb]

/-- C9 counterexample: on the 14-character id "1234567-512345" the
characters at positions 8-9 are "-5" — not digits — yet the function
returns -5 (Python's `int("-5")` succeeds) instead of the null the claim
requires for non-digit characters. -/
theorem get_governorate_nondigit_counterexample :
    (¬ ∀ c ∈ ((("1234567-512345" : String).toList.drop 7).take 2),
        isDigitChar c = true) ∧
      get_governorate_from_national_id "1234567-512345" = some (-5) := by
  constructor
  · intro h
    exact absurd (h '-' (by decide)) (by decide)
  · decide

/-- C9 (amended): an id whose textual length is not 14 yields null; on a
14-character id, characters 8-9 equal to "88" yield governorate 1,
two digit characters yield their two-digit value (so "05" gives 5), and
the result is null exactly when the two characters do not parse under
Python's `int()` — which, beyond digit pairs, also accepts a sign or
surrounding whitespace with a single digit (so "-5" gives -5 rather than
the null the original claim stated). -/
theorem get_governorate_from_national_id_spec (s : String) :
    (s.length ≠ 14 → get_governorate_from_national_id s = none) ∧
      (s.length = 14 →
        ((s.toList.drop 7).take 2 = ['8', '8'] →
          get_governorate_from_national_id s = some 1) ∧
        (∀ a b, (s.toList.drop 7).take 2 = [a, b] →
          (s.toList.drop 7).take 2 ≠ ['8', '8'] →
          isDigitChar a = true → isDigitChar b = true →
          get_governorate_from_national_id s =
            some ((10 * (a.toNat - 48) + (b.toNat - 48) : ℕ) : ℤ)) ∧
        (∀ a b, (s.toList.drop 7).take 2 = [a, b] → pyInt [a, b] = none →
          get_governorate_from_national_id s = none)) := by
  constructor
  · intro h
    simp [get_governorate_from_national_id, h]
  · intro h14
    have hne : ¬(s.length = 0 ∨ s.length ≠ 14) := by omega
    refine ⟨?_, ?_, ?_⟩
    · intro h88
      simp only [String.toList] at h88
      simp [get_governorate_from_national_id, hne, h88]
    · intro a b hab h88 ha hb
      rw [get_governorate_from_national_id, if_neg hne]
      simp only [hab] at h88 ⊢
      rw [if_neg h88]
      exact pyInt_two_digits a b ha hb
    · intro a b hab hnone
      have h88 : [a, b] ≠ ['8', '8'] := by
        intro h
        rw [h] at hnone
        exact absurd hnone (by decide)
      rw [get_governorate_from_national_id, if_neg hne]
      simp only [hab]
      rw [if_neg h88]
      exact hnone

/-- Witness for `get_governorate_from_national_id_spec` at the concrete
id "12345678901234", whose characters 8-9 are the digits "89". -/
theorem get_governorate_from_national_id_spec_witness :
    ("12345678901234" : String).length = 14 ∧
      get_governorate_from_national_id "12345678901234" = some 89 := by
  refine ⟨by decide, ?_⟩
  have h := ((get_governorate_from_national_id_spec "12345678901234").2
    (by decide)).2.1 '8' '9' (by decide) (by decide) (by decide) (by decide)
  simpa using h

/-! ## Loan products (`CustomLogic.process_columns`, lines 219-252)

Machine floats are modelled as rationals; Python's `round(x, 4)` is
modelled as rounding `x * 10000` to an integer (Python rounds ties to
even on floats, Mathlib's `round` rounds ties up; no value in these claims
is a tie). -/

/-- Python's `round(q, 4)` on the rational embedding. -/
def round4 (q : ℚ) : ℚ := (round (q * 10000) : ℤ) / 10000

/-- `flat_to_declining` (`CustomLogic.py` lines 226-232): percentage to
decimal, the declining-balance formula, back to a percentage rounded to
four decimals. -/
def flat_to_declining (flat_rate : ℚ) (periods : ℤ) : ℚ :=
  round4 ((2 * (flat_rate / 100) * (periods : ℚ)) / ((periods : ℚ) + 1) * 100)

/-- The fields of one `loan_products` row computed by the rate-conversion
and strategy-mapping block of `process_columns`. -/
structure LoanProductRates where
  default_interest_rate : ℚ
  minimum_interest_rate : ℚ
  maximum_interest_rate : ℚ
  loan_transaction_processing_strategy_id : ℤ
  deriving Repr, DecidableEq

/-- The `loan_products` branch of `process_columns`: each flat rate is
converted with its own term when nonzero (Python truthiness), else 0;
the processing strategy maps 2 to 24 and everything else to 23. -/
def loan_products_process (flat_default flat_minimum flat_maximum : ℚ)
    (default_term minimum_term maximum_term : ℤ)
    (strategy : Option ℤ) : LoanProductRates :=
  { default_interest_rate :=
      if flat_default ≠ 0 then flat_to_declining flat_default default_term
      else 0
    minimum_interest_rate :=
      if flat_minimum ≠ 0 then flat_to_declining flat_minimum minimum_term
      else 0
    maximum_interest_rate :=
      if flat_maximum ≠ 0 then flat_to_declining flat_maximum maximum_term
      else 0
    loan_transaction_processing_strategy_id :=
      if strategy = some 2 then 24 else 23 }

theorem flat_to_declining_eq (f : ℚ) (n : ℤ) :
    flat_to_declining f n = round4 ((2 * f * n) / ((n : ℚ) + 1)) := by
  unfold flat_to_declining
  congr 1
  have h1 : 2 * (f / 100) * (n : ℚ) = (2 * f * n) / 100 := by ring
  rw [h1, div_div, div_mul_eq_mul_div]
  rw [show (2 * f * (n : ℚ)) * 100 = 100 * (2 * f * n) by ring]
  rw [show (100 : ℚ) * ((n : ℚ) + 1) = 100 * ((n : ℚ) + 1) from rfl]
  exact mul_div_mul_left _ _ (by norm_num)

/-- C7: each of the three flat rates is converted to
`round((2 * flat * n) / (n + 1), 4)` with its own term `n`, a zero flat
rate yields 0, the worked example gives exactly 22.1538, and the
processing-strategy code maps 2 to 24 and everything else to 23. -/
theorem loan_products_rates_spec (fd fm fx : ℚ) (td tm tx : ℤ)
    (strategy : Option ℤ) (htd : 1 ≤ td) (htm : 1 ≤ tm) (htx : 1 ≤ tx) :
    (fd ≠ 0 →
      (loan_products_process fd fm fx td tm tx strategy).default_interest_rate =
        round4 ((2 * fd * td) / ((td : ℚ) + 1))) ∧
    (fd = 0 →
      (loan_products_process fd fm fx td tm tx strategy).default_interest_rate = 0) ∧
    (fm ≠ 0 →
      (loan_products_process fd fm fx td tm tx strategy).minimum_interest_rate =
        round4 ((2 * fm * tm) / ((tm : ℚ) + 1))) ∧
    (fm = 0 →
      (loan_products_process fd fm fx td tm tx strategy).minimum_interest_rate = 0) ∧
    (fx ≠ 0 →
      (loan_products_process fd fm fx td tm tx strategy).maximum_interest_rate =
        round4 ((2 * fx * tx) / ((tx : ℚ) + 1))) ∧
    (fx = 0 →
      (loan_products_process fd fm fx td tm tx strategy).maximum_interest_rate = 0) ∧
    (strategy = some 2 →
      (loan_products_process fd fm fx td tm tx
        strategy).loan_transaction_processing_strategy_id = 24) ∧
    (strategy ≠ some 2 →
      (loan_products_process fd fm fx td tm tx
        strategy).loan_transaction_processing_strategy_id = 23) ∧
    flat_to_declining 12 12 = (22.1538 : ℚ) := by
  refine ⟨?_, ?_, ?_, ?_, ?_, ?_, ?_, ?_, ?_⟩
  · intro h
    simp [loan_products_process, h, flat_to_declining_eq]
  · intro h
    simp [loan_products_process, h]
  · intro h
    simp [loan_products_process, h, flat_to_declining_eq]
  · intro h
    simp [loan_products_process, h]
  · intro h
    simp [loan_products_process, h, flat_to_declining_eq]
  · intro h
    simp [loan_products_process, h]
  · intro h
    simp [loan_products_process, h]
  · intro h
    simp [loan_products_process, h]
  · rw [flat_to_declining]
    norm_num [round4, round_eq]

/-- Witness for `loan_products_rates_spec` at flat rates 12/0/6 over
12-period terms with strategy code 2. -/
theorem loan_products_rates_spec_witness :
    ((1 : ℤ) ≤ 12) ∧
      (loan_products_process 12 0 6 12 12 12
        (some 2)).loan_transaction_processing_strategy_id = 24 := by
  refine ⟨by decide, ?_⟩
  exact (loan_products_rates_spec 12 0 6 12 12 12 (some 2) (by decide)
    (by decide) (by decide)).2.2.2.2.2.2.1 rfl

/-! ## First payment date (`CustomLogic.process_columns`, lines 470-498)

Python `datetime.date` values are modelled as year/month/day triples with
the proleptic Gregorian leap rule; `date.replace(year, month)` raises
`ValueError` exactly when the day does not exist in the target month, and
`datetime(y, m, 1) - timedelta(days=1)` is one-day subtraction. -/

/-- Gregorian leap-year rule used by Python's `datetime`. -/
def isLeap (y : ℕ) : Bool := decide (y % 4 = 0 ∧ (y % 100 ≠ 0 ∨ y % 400 = 0))

/-- Number of days of month `m` of year `y`. -/
def daysInMonth (y m : ℕ) : ℕ :=
  if m = 2 then (if isLeap y then 29 else 28)
  else if m = 4 ∨ m = 6 ∨ m = 9 ∨ m = 11 then 30
  else 31

/-- A calendar date as carried in `disbursed_on_date`. -/
structure PyDate where
  year : ℕ
  month : ℕ
  day : ℕ
  deriving Repr, DecidableEq

/-- Validity of a `datetime.date`. -/
def ValidDate (d : PyDate) : Prop :=
  1 ≤ d.month ∧ d.month ≤ 12 ∧ 1 ≤ d.day ∧ d.day ≤ daysInMonth d.year d.month

instance (d : PyDate) : Decidable (ValidDate d) := by
  unfold ValidDate
  infer_instance

/-- Subtraction of `timedelta(days=1)`. -/
def subOneDay (d : PyDate) : PyDate :=
  if 1 < d.day then ⟨d.year, d.month, d.day - 1⟩
  else if 1 < d.month then ⟨d.year, d.month - 1, daysInMonth d.year (d.month - 1)⟩
  else ⟨d.year - 1, 12, 31⟩

/-- The first-payment-date computation of the `loans` branch
(`CustomLogic.py` lines 470-496): advance the month with December
rollover, keep the day via `replace` when it exists in the target month,
otherwise fall back to the last day of the target month computed as the
first of the following month minus one day. -/
def first_payment_date (d : PyDate) : PyDate :=
  let m0 := d.month + 1
  let y := if m0 > 12 then d.year + 1 else d.year
  let m := if m0 > 12 then 1 else m0
  if d.day ≤ daysInMonth y m then ⟨y, m, d.day⟩
  else if m = 12 then subOneDay ⟨y + 1, 1, 1⟩
  else subOneDay ⟨y, m + 1, 1⟩

/-- The surrounding conditional: `first_payment_date` is set only when a
disbursed date is present (`CustomLogic.py` lines 471 and 497-498). -/
def set_first_payment_date (disbursed : Option PyDate) : Option PyDate :=
  disbursed.map first_payment_date

/-- Reference function written from the spec's words: the disbursed date
advanced by exactly one calendar month, the day clamped to the last valid
day of the target month. -/
def specAdvanceOneMonthClamped (d : PyDate) : PyDate :=
  if d.month = 12 then
    ⟨d.year + 1, 1, min d.day (daysInMonth (d.year + 1) 1)⟩
  else
    ⟨d.year, d.month + 1, min d.day (daysInMonth d.year (d.month + 1))⟩

theorem daysInMonth_le_31 (y m : ℕ) : daysInMonth y m ≤ 31 := by
  unfold daysInMonth
  split_ifs <;> omega

theorem daysInMonth_one (y : ℕ) : daysInMonth y 1 = 31 := by
  simp [daysInMonth]

theorem daysInMonth_twelve (y : ℕ) : daysInMonth y 12 = 31 := by
  simp [daysInMonth]

theorem daysInMonth_eleven (y : ℕ) : daysInMonth y 11 = 30 := by
  simp [daysInMonth]

theorem first_payment_date_eq_spec (d : PyDate) (h : ValidDate d) :
    first_payment_date d = specAdvanceOneMonthClamped d := by
  obtain ⟨hm1, hm12, hd1, hdm⟩ := h
  by_cases h12 : d.month = 12
  · have hday31 : d.day ≤ 31 := le_trans hdm (by rw [h12, daysInMonth_twelve])
    simp only [first_payment_date, specAdvanceOneMonthClamped, h12]
    norm_num [daysInMonth_one]
    rw [if_pos hday31, min_eq_left hday31]
  · have hneg : ¬ d.month + 1 > 12 := by omega
    simp only [first_payment_date, specAdvanceOneMonthClamped, h12,
      if_neg hneg, if_false]
    by_cases hfits : d.day ≤ daysInMonth d.year (d.month + 1)
    · rw [if_pos hfits, min_eq_left hfits]
    · have hlt : daysInMonth d.year (d.month + 1) < d.day := by omega
      rw [if_neg hfits, min_eq_right (le_of_lt hlt)]
      have hne12 : d.month + 1 ≠ 12 := by
        intro hc
        have h11 : d.month = 11 := by omega
        rw [h11, daysInMonth_eleven] at hdm
        rw [hc, daysInMonth_twelve] at hfits
        omega
      rw [if_neg hne12]
      simp only [subOneDay]
      rw [if_neg (by omega : ¬ (1 : ℕ) < 1),
        if_pos (by omega : 1 < d.month + 1 + 1)]
      simp

/-- C8: for a valid disbursed date, `first_payment_date` advances by
exactly one calendar month clamping the day to the target month's last
valid day (2024-01-31 gives 2024-02-29, 2023-01-31 gives 2023-02-28,
2024-03-15 gives 2024-04-15, December rolls into January of the next
year), and when no disbursed date is present the field is not set. -/
theorem first_payment_date_spec (d : PyDate) (h : ValidDate d) :
    set_first_payment_date (some d) =
        some (specAdvanceOneMonthClamped d) ∧
      set_first_payment_date none = none ∧
      first_payment_date ⟨2024, 1, 31⟩ = ⟨2024, 2, 29⟩ ∧
      first_payment_date ⟨2023, 1, 31⟩ = ⟨2023, 2, 28⟩ ∧
      first_payment_date ⟨2024, 3, 15⟩ = ⟨2024, 4, 15⟩ ∧
      first_payment_date ⟨2024, 12, 31⟩ = ⟨2025, 1, 31⟩ := by
  refine ⟨?_, rfl, by decide, by decide, by decide, by decide⟩
  simp [set_first_payment_date, first_payment_date_eq_spec d h]

/-- Witness for `first_payment_date_spec` at the leap-year edge date
2024-01-31. -/
theorem first_payment_date_spec_witness :
    ValidDate ⟨2024, 1, 31⟩ ∧
      set_first_payment_date (some ⟨2024, 1, 31⟩) =
        some (specAdvanceOneMonthClamped ⟨2024, 1, 31⟩) :=
  ⟨by decide, (first_payment_date_spec ⟨2024, 1, 31⟩ (by decide)).1⟩

/-! ## Transactions migration (`CustomLogic.process_columns`, lines 614-873)

The model follows the field computations of the `transactions` branch in
source order: null-coalescing (656-664), sign normalization to
non-negative (764-772), the `principal_repaid_derived` and penalty-folding
computations (786-789), the unmapped-type skip path (791-809), the
cancellation sign flip and recomputation (811-847), and the type-id and
debit/credit assignment (853-864).  Lookup side effects, the side-channel
penalty/fee inserts and the datetime adjustments do not touch these
fields and are not modelled here. -/

/-- One source transaction row (columns read by the branch). -/
structure SrcTx where
  trans_act : Option ℤ
  amount : Option ℚ
  interest_repaid_derived : Option ℚ
  penalties_repaid_derived : Option ℚ
  deriving Repr, DecidableEq

/-- The `trans_type_mapping` table (`CustomLogic.py` lines 668-678). -/
def trans_type_mapping (t : ℤ) : Option ℤ :=
  if t = 1 then some 2
  else if t = 3 then some 1
  else if t = 7 then some 6
  else if t = 17 then some 10
  else if t = 2 then some 2
  else if t = 4 then some 1
  else if t = 8 then some 6
  else if t = 18 then some 10
  else none

/-- The `cancellation_types` set (`CustomLogic.py` line 681). -/
def cancellation_types : List ℤ := [2, 4, 8, 18]

/-- The fields of `row_data` written by the `transactions` branch, plus
the skip marker and the two progress counters' increments. -/
structure TxRowResult where
  amount : ℚ
  principal_repaid_derived : ℚ
  interest_repaid_derived : ℚ
  penalties_repaid_derived : ℚ
  loan_transaction_type_id : Option ℤ
  debit : Option ℚ
  credit : Option ℚ
  skipFlag : Bool
  skippedDelta : ℕ
  insertedDelta : ℕ
  deriving Repr, DecidableEq

/-- The skip-path result (`CustomLogic.py` lines 791-809): counters and
the `_skip_this_row` marker, with the already-computed monetary fields. -/
def txSkipResult (amount2 principal1 i1 p1 : ℚ) : TxRowResult :=
  { amount := amount2
    principal_repaid_derived := principal1
    interest_repaid_derived := i1
    penalties_repaid_derived := p1
    loan_transaction_type_id := none
    debit := none
    credit := none
    skipFlag := true
    skippedDelta := 1
    insertedDelta := 0 }

/-- The `transactions` branch of `process_columns` as a function on the
monetary columns (see the section comment for line references). -/
def process_columns_transactions (src : SrcTx) : TxRowResult :=
  let a1 : ℚ := |orZero src.amount|
  let i1 : ℚ := |orZero src.interest_repaid_derived|
  let p1 : ℚ := |orZero src.penalties_repaid_derived|
  let principal1 : ℚ := a1 - i1
  let amount2 : ℚ := a1 + p1
  match src.trans_act with
  | none => txSkipResult amount2 principal1 i1 p1
  | some t =>
    match trans_type_mapping t with
    | none => txSkipResult amount2 principal1 i1 p1
    | some tid =>
      if t ∈ cancellation_types then
        let amount3 : ℚ := if amount2 > 0 then -amount2 else amount2
        let i2 : ℚ := if i1 > 0 then -i1 else i1
        let p2 : ℚ := if p1 > 0 then -p1 else p1
        { amount := amount3
          principal_repaid_derived := amount3 - i2
          interest_repaid_derived := i2
          penalties_repaid_derived := p2
          loan_transaction_type_id := some tid
          debit := if tid = 1 ∨ tid = 10 then some amount3 else some 0
          credit := if tid = 1 ∨ tid = 10 then some 0 else some amount3
          skipFlag := false
          skippedDelta := 0
          insertedDelta := 1 }
      else
        { amount := amount2
          principal_repaid_derived := principal1
          interest_repaid_derived := i1
          penalties_repaid_derived := p1
          loan_transaction_type_id := some tid
          debit := if tid = 1 ∨ tid = 10 then some amount2 else some 0
          credit := if tid = 1 ∨ tid = 10 then some 0 else some amount2
          skipFlag := false
          skippedDelta := 0
          insertedDelta := 1 }

/-- Keys that the skip path adds to the `row_data` dict (line 808). -/
def row_marker_keys (r : TxRowResult) : List String :=
  if r.skipFlag then ["_skip_this_row"] else []

/-- `run_script`'s view of the processed row (`MigrationManager.py` lines
299-311): `process_columns` mutates `processed_row` in place and its
return value is discarded, so `processed_row` is the same dict object and
is never `None`. -/
def run_script_processed_row (src : SrcTx) : Option TxRowResult :=
  some (process_columns_transactions src)

/-- The skip test of `run_script` (`MigrationManager.py` line 309):
`if processed_row is None: continue`. -/
def run_script_row_skipped (src : SrcTx) : Bool :=
  (run_script_processed_row src).isNone

theorem flip_nonpos (x : ℚ) (hx : 0 ≤ x) : (if x > 0 then -x else x) ≤ 0 := by
  split_ifs with h
  · linarith
  · linarith

/-- C6: for a cancellation-type source transaction (type 2, 4, 8 or 18)
the row is not skipped, and after the transformation the final amount,
`interest_repaid_derived` and `penalties_repaid_derived` are all ≤ 0
regardless of the source signs, with `principal_repaid_derived` equal to
amount minus `interest_repaid_derived` after the flip. -/
theorem transactions_cancellation_sign (src : SrcTx) (t : ℤ)
    (ht : src.trans_act = some t) (hc : t ∈ cancellation_types) :
    (process_columns_transactions src).skipFlag = false ∧
      (process_columns_transactions src).amount ≤ 0 ∧
      (process_columns_transactions src).interest_repaid_derived ≤ 0 ∧
      (process_columns_transactions src).penalties_repaid_derived ≤ 0 ∧
      (process_columns_transactions src).principal_repaid_derived =
        (process_columns_transactions src).amount -
          (process_columns_transactions src).interest_repaid_derived := by
  have hmap : ∃ tid, trans_type_mapping t = some tid := by
    fin_cases hc <;> exact ⟨_, rfl⟩
  obtain ⟨tid, htid⟩ := hmap
  have ha : (0 : ℚ) ≤ |orZero src.amount| + |orZero src.penalties_repaid_derived| := by
    positivity
  have hi : (0 : ℚ) ≤ |orZero src.interest_repaid_derived| := abs_nonneg _
  have hp : (0 : ℚ) ≤ |orZero src.penalties_repaid_derived| := abs_nonneg _
  simp only [process_columns_transactions, ht, htid, if_pos hc]
  exact ⟨trivial, flip_nonpos _ ha, flip_nonpos _ hi, flip_nonpos _ hp, trivial⟩

/-- Witness for `transactions_cancellation_sign` at a concrete
cancel-repayment row (source type 2). -/
theorem transactions_cancellation_sign_witness :
    (SrcTx.mk (some 2) (some 7) (some 2) (some 1)).trans_act = some 2 ∧
      (2 : ℤ) ∈ cancellation_types ∧
      (process_columns_transactions
          (SrcTx.mk (some 2) (some 7) (some 2) (some 1))).amount ≤ 0 := by
  refine ⟨rfl, by decide, ?_⟩
  exact (transactions_cancellation_sign
    (SrcTx.mk (some 2) (some 7) (some 2) (some 1)) 2 rfl (by decide)).2.1

/-- C2 (code bug): for a source transaction of unmapped type 99 the skip
counter is incremented and the `_skip_this_row` marker is set, but
`run_script` never reads the marker — its `processed_row is None` test can
never be true because `process_columns` mutates the dict in place and the
return value is discarded — so the row is NOT dropped: `run_script`
proceeds to build an INSERT whose column list contains the bogus
`_skip_this_row` column, which fails at the database and is counted as a
row-processing error instead of a clean skip. -/
theorem unmapped_transaction_not_skipped :
    (process_columns_transactions
        (SrcTx.mk (some 99) (some 5) (some 1) (some 0))).skippedDelta = 1 ∧
      (process_columns_transactions
        (SrcTx.mk (some 99) (some 5) (some 1) (some 0))).skipFlag = true ∧
      run_script_row_skipped (SrcTx.mk (some 99) (some 5) (some 1) (some 0)) =
        false ∧
      "_skip_this_row" ∈ row_marker_keys (process_columns_transactions
        (SrcTx.mk (some 99) (some 5) (some 1) (some 0))) := by
  refine ⟨by decide, by decide, rfl, by decide⟩

/-! ## WKB coordinate decoding (`custom_helper.extract_lat_lon_from_wkb`)
and the clients latitude/longitude branch (`CustomLogic.py` lines 192-205)

Bytes are modelled as natural numbers below 256 and the two decoded
doubles are returned as their raw little-endian 64-bit words; the claims
under verification concern which inputs make the decoder fail and how
that failure propagates, not the real value of the coordinates
(`struct.unpack` itself cannot fail once eight bytes are available). -/

/-- Value of one hexadecimal digit as accepted by `binascii.unhexlify`. -/
def hexDigitVal (c : Char) : Option ℕ :=
  if 48 ≤ c.toNat ∧ c.toNat ≤ 57 then some (c.toNat - 48)
  else if 65 ≤ c.toNat ∧ c.toNat ≤ 70 then some (c.toNat - 55)
  else if 97 ≤ c.toNat ∧ c.toNat ≤ 102 then some (c.toNat - 87)
  else none

/-- `binascii.unhexlify`: fails on odd length or non-hex characters. -/
def unhexlify : List Char → Option (List ℕ)
  | [] => some []
  | [_] => none
  | a :: b :: rest =>
      match hexDigitVal a, hexDigitVal b, unhexlify rest with
      | some x, some y, some bs => some ((16 * x + y) :: bs)
      | _, _, _ => none

/-- Removal of a leading "0x" or "0X". -/
def strip0x : List Char → List Char
  | '0' :: 'x' :: rest => rest
  | '0' :: 'X' :: rest => rest
  | l => l

/-- The non-standard header the decoder requires (case-sensitive). -/
def wkbHeaderChars : List Char :=
  ['E', '6', '1', '0', '0', '0', '0', '0', '0', '1', '0', 'F']

/-- Python's `str.startswith` on character lists. -/
def listStartsWith : List Char → List Char → Bool
  | _, [] => true
  | [], _ :: _ => false
  | c :: cs, p :: ps => c = p && listStartsWith cs ps

/-- Little-endian word value of a byte list. -/
def leWord : List ℕ → ℕ
  | [] => 0
  | b :: rest => b + 256 * leWord rest

/-- WKB input: a hex string or raw driver bytes. -/
inductive WkbData where
  | hex (s : List Char)
  | raw (bytes : List ℕ)
  deriving Repr, DecidableEq

/-- The binary tail of the decoder (`custom_helper.py` lines 745-783):
length guard, then the two doubles at byte offsets 6-13 and 14-21. -/
def decodeWkbBytes (bs : List ℕ) : Option (ℕ × ℕ) :=
  if bs.length < 22 then none
  else
    let lat_bytes := (bs.drop 6).take 8
    let lon_bytes := (bs.drop 14).take 8
    if lat_bytes.length = 8 ∧ lon_bytes.length = 8 then
      some (leWord lat_bytes, leWord lon_bytes)
    else none

/-- `extract_lat_lon_from_wkb` (`custom_helper.py` lines 666-789): raw
bytes go straight to the binary tail; hex strings are stripped of "0x",
checked against the fixed header, length-checked (76 hex characters) and
unhexlified, with every failure returning `None`. -/
def extract_lat_lon_from_wkb (w : WkbData) : Option (ℕ × ℕ) :=
  match w with
  | .raw bs => decodeWkbBytes bs
  | .hex s =>
      let s1 := strip0x s
      if listStartsWith s1 wkbHeaderChars then
        if s1.length < 76 then none
        else
          match unhexlify s1 with
          | none => none
          | some bs => decodeWkbBytes bs
      else none

/-- Python truthiness of the `home_geography` value: empty string or
empty bytes are falsy and take the default branch. -/
def wkbFalsy : WkbData → Bool
  | .hex s => s.isEmpty
  | .raw bs => bs.isEmpty

/-- Outcome of the clients latitude/longitude assignment. -/
inductive ClientGeo where
  /-- `latitude`/`approved_latitude`/`longitude`/`approved_longitude`
  all set to `0.00000000`. -/
  | defaultZeroZero
  /-- Coordinates decoded from the blob (raw 64-bit words). -/
  | blobCoords (latWord lonWord : ℕ)
  /-- The decoder returned `None` and `lat, lon = None` raised a
  `TypeError`, so the whole client row fails processing. -/
  | rowFailure
  deriving Repr, DecidableEq

/-- The clients branch (`CustomLogic.py` lines 192-205): a falsy (absent
or empty) blob takes the `(0, 0)` default; a present blob is decoded,
and a decoder failure aborts the row via the two-value unpacking of
`None`. -/
def clients_geo (home_geography : Option WkbData) : ClientGeo :=
  match home_geography with
  | none => .defaultZeroZero
  | some w =>
      if wkbFalsy w then .defaultZeroZero
      else
        match extract_lat_lon_from_wkb w with
        | none => .rowFailure
        | some (a, b) => .blobCoords a b

/-- C10: the `(0, 0)` default is applied only for an absent (Python-falsy)
home-geography blob; a present blob on which the decoder fails makes the
whole row fail rather than receive default coordinates; and the decoder
does fail — returning `None` — on a wrong header prefix, on too-short
data, and on non-hex content. -/
theorem clients_geo_spec (g : Option WkbData) :
    (clients_geo none = ClientGeo.defaultZeroZero) ∧
      (∀ w, g = some w → wkbFalsy w = false →
        (extract_lat_lon_from_wkb w = none →
          clients_geo g = ClientGeo.rowFailure) ∧
        (∀ a b, extract_lat_lon_from_wkb w = some (a, b) →
          clients_geo g = ClientGeo.blobCoords a b) ∧
        clients_geo g ≠ ClientGeo.defaultZeroZero) ∧
      (∀ s, listStartsWith (strip0x s) wkbHeaderChars = false →
        extract_lat_lon_from_wkb (WkbData.hex s) = none) ∧
      (∀ s, (strip0x s).length < 76 →
        extract_lat_lon_from_wkb (WkbData.hex s) = none) ∧
      (∀ s, unhexlify (strip0x s) = none →
        extract_lat_lon_from_wkb (WkbData.hex s) = none) := by
  refine ⟨rfl, ?_, ?_, ?_, ?_⟩
  · rintro w rfl hfalsy
    refine ⟨?_, ?_, ?_⟩
    · intro hnone
      simp [clients_geo, hfalsy, hnone]
    · intro a b hsome
      simp [clients_geo, hfalsy, hsome]
    · cases hx : extract_lat_lon_from_wkb w with
      | none => simp [clients_geo, hfalsy, hx]
      | some p => cases p with
        | mk a b => simp [clients_geo, hfalsy, hx]
  · intro s hpre
    simp [extract_lat_lon_from_wkb, hpre]
  · intro s hlen
    by_cases hpre : listStartsWith (strip0x s) wkbHeaderChars
    · simp [extract_lat_lon_from_wkb, hpre, hlen]
    · simp [extract_lat_lon_from_wkb, hpre]
  · intro s hhex
    by_cases hpre : listStartsWith (strip0x s) wkbHeaderChars
    · by_cases hlen : (strip0x s).length < 76
      · simp [extract_lat_lon_from_wkb, hpre, hlen]
      · simp [extract_lat_lon_from_wkb, hpre, hlen, hhex]
    · simp [extract_lat_lon_from_wkb, hpre]

/-- Witness for `clients_geo_spec`: a present two-character blob fails
the header check and the client row fails instead of defaulting. -/
theorem clients_geo_spec_witness :
    (some (WkbData.hex ['E', '6']) = some (WkbData.hex ['E', '6'])) ∧
      wkbFalsy (WkbData.hex ['E', '6']) = false ∧
      extract_lat_lon_from_wkb (WkbData.hex ['E', '6']) = none ∧
      clients_geo (some (WkbData.hex ['E', '6'])) = ClientGeo.rowFailure := by
  refine ⟨rfl, by decide, by decide, ?_⟩
  exact (((clients_geo_spec (some (WkbData.hex ['E', '6']))).2.1
    (WkbData.hex ['E', '6']) rfl (by decide)).1 (by decide))

/-! ## Early-settlement engine (`custom_helper.handle_early_settlement`,
lines 293-619, and the per-loan loop of `settle_installments`)

The database is modelled as three row lists plus an auto-increment
counter; a connection carries a durable snapshot and the pending
(uncommitted) state.  `cursor.execute` mutates only the pending state;
`commit` copies pending over durable; `rollback` copies durable over
pending.  Dates are opaque tokens (`Option ℕ`, `none` standing for
`datetime.now()`).  The model has no injected database errors, so the
source's `except` / `rollback` / re-raise arm is unreachable here; the
reachable outcomes are the two graceful aborts and completion. -/

/-- A `loans` row (columns the engine reads or writes). -/
structure Loan where
  id : ℕ
  loan_term : ℤ
  status : String
  branch_id : ℕ
  loan_officer_id : ℕ
  external_id : ℕ
  deriving Repr, DecidableEq

/-- A `loan_repayment_schedules` row. -/
structure Installment where
  id : ℕ
  loan_id : ℕ
  installment : ℕ
  principal : Option ℚ
  interest : Option ℚ
  fees : Option ℚ
  penalties : Option ℚ
  principal_repaid_derived : Option ℚ
  interest_repaid_derived : Option ℚ
  fees_repaid_derived : Option ℚ
  penalties_repaid_derived : Option ℚ
  principal_written_off_derived : Option ℚ
  interest_written_off_derived : Option ℚ
  fees_written_off_derived : Option ℚ
  penalties_written_off_derived : Option ℚ
  interest_waived_derived : Option ℚ
  fees_waived_derived : Option ℚ
  penalties_waived_derived : Option ℚ
  paid_by_date : Option ℕ
  status : String
  is_early_repayment : Bool
  deriving Repr, DecidableEq

/-- A `loan_transactions` row as touched by the engine. -/
structure DbTx where
  id : ℕ
  loan_id : ℕ
  repayment_schedule_id : Option ℕ
  loan_transaction_type_id : ℤ
  amount : ℚ
  debit : Option ℚ
  credit : Option ℚ
  principal_repaid_derived : Option ℚ
  interest_repaid_derived : Option ℚ
  fees_repaid_derived : Option ℚ
  principal_balance : Option ℚ
  interest_balance : Option ℚ
  fees_balance : Option ℚ
  penalties_balance : Option ℚ
  total_balance : Option ℚ
  created_at : Option ℕ
  submitted_on : Option ℕ
  branch_id : ℕ
  loan_officer_id : ℕ
  description : String
  deriving Repr, DecidableEq

/-- Database state: the three tables plus the transaction id sequence. -/
structure DB where
  loans : List Loan
  installments : List Installment
  transactions : List DbTx
  nextTxId : ℕ
  deriving Repr, DecidableEq

/-- A connection: committed snapshot plus uncommitted pending state. -/
structure Conn where
  durable : DB
  pending : DB
  deriving Repr, DecidableEq

/-- Insert a transaction row, assigning the auto-increment id
(`general_helper.insert_record`). -/
def insertTx (db : DB) (t : DbTx) : DB :=
  { db with
    transactions := db.transactions ++ [{ t with id := db.nextTxId }]
    nextTxId := db.nextTxId + 1 }

/-- Selection step modelling `ORDER BY ... LIMIT 1`: keep the incoming
row when `f` prefers it over the current candidate. -/
def pickBy {α : Type} (f : α → α → Bool) (acc : Option α) (i : α) : Option α :=
  match acc with
  | none => some i
  | some j => if f i j then some i else some j

/-- `ORDER BY installment DESC LIMIT 1`: the (first) row of maximal
sequence number. -/
def lastInstallment (insts : List Installment) : Option Installment :=
  insts.foldl (pickBy (fun i j => j.installment < i.installment)) none

/-- Outstanding amount of one installment: due minus repaid minus
written-off minus waived (the unpaid-selection formula, lines 360-371). -/
def instOutstanding (i : Installment) : ℚ :=
  (orZero i.principal + orZero i.interest + orZero i.fees +
      orZero i.penalties) -
    (orZero i.principal_repaid_derived + orZero i.interest_repaid_derived +
      orZero i.fees_repaid_derived + orZero i.penalties_repaid_derived) -
    (orZero i.principal_written_off_derived +
      orZero i.interest_written_off_derived +
      orZero i.fees_written_off_derived +
      orZero i.penalties_written_off_derived) -
    (orZero i.interest_waived_derived + orZero i.fees_waived_derived +
      orZero i.penalties_waived_derived)

/-- `WHERE outstanding > 0 ORDER BY installment ASC LIMIT 1`: the (first)
unpaid row of minimal sequence number. -/
def firstUnpaid (insts : List Installment) : Option Installment :=
  (insts.filter (fun i => instOutstanding i > 0)).foldl
    (pickBy (fun i j => i.installment < j.installment)) none

/-- `ORDER BY id DESC LIMIT 1`: the latest transaction of a list. -/
def lastTransaction (txs : List DbTx) : Option DbTx :=
  txs.foldl (pickBy (fun t u => u.id < t.id)) none

/-- Outcome of `handle_early_settlement` on one loan. -/
inductive ESOutcome where
  | abortedNoInstallments
  | abortedNoUnpaid
  | completed
  deriving Repr, DecidableEq

/-- `handle_early_settlement` (`custom_helper.py` lines 293-619), in
source order: find the settlement (last) installment joined with the
loan row (graceful return if none); delete the transactions linked to it;
find the first unpaid installment (graceful return — with the deletion
already executed and neither committed nor rolled back — if none); mark
the unpaid installment with the fee; delete the settlement installment;
decrement the loan term; set the payoff columns on every installment of
the loan with row id ≥ the unpaid one's; sum principal/interest over that
range; read the latest transaction's balances as a baseline (0 if none);
insert up to three synthetic transactions; set the loan status to
"closed"; commit.  (The rebindings of the baseline balances between
inserts in the source have no further readers and are elided.) -/
def handle_early_settlement (conn : Conn) (loan_id : ℕ) : Conn × ESOutcome :=
  let db := conn.pending
  match db.loans.find? (fun (l : Loan) => l.id = loan_id) with
  | none => (conn, ESOutcome.abortedNoInstallments)
  | some loan =>
    match lastInstallment (db.installments.filter (fun (i : Installment) => i.loan_id = loan_id)) with
    | none => (conn, ESOutcome.abortedNoInstallments)
    | some settlement =>
      let settlement_fee := orZero settlement.interest
      let settlement_paid_by_date := settlement.paid_by_date
      let db1 := { db with transactions :=
        db.transactions.filter (fun (t : DbTx) => t.repayment_schedule_id ≠ some settlement.id) }
      match firstUnpaid (db1.installments.filter (fun (i : Installment) => i.loan_id = loan_id)) with
      | none => ({ conn with pending := db1 }, ESOutcome.abortedNoUnpaid)
      | some unpaid =>
        let db2 := { db1 with installments := db1.installments.map (fun (i : Installment) =>
          if i.id = unpaid.id then
            { i with fees := some settlement_fee
                     fees_repaid_derived := some settlement_fee
                     is_early_repayment := true }
          else i) }
        let db3 := { db2 with installments :=
          db2.installments.filter (fun (i : Installment) => i.id ≠ settlement.id) }
        let db4 := { db3 with loans := db3.loans.map (fun (l : Loan) =>
          if l.id = loan_id then { l with loan_term := l.loan_term - 1 } else l) }
        let db5 := { db4 with installments := db4.installments.map (fun (i : Installment) =>
          if i.loan_id = loan_id ∧ unpaid.id ≤ i.id then
            { i with principal_repaid_derived := i.principal
                     interest_waived_derived := i.interest
                     paid_by_date := settlement_paid_by_date
                     status := "payoff" }
          else i) }
        let range := db5.installments.filter
          (fun (i : Installment) => i.loan_id = loan_id ∧ unpaid.id ≤ i.id)
        let total_principal := (range.map (fun (i : Installment) => orZero i.principal)).sum
        let total_interest := (range.map (fun (i : Installment) => orZero i.interest)).sum
        let last_tx := lastTransaction
          (db5.transactions.filter (fun (t : DbTx) => t.loan_id = loan_id))
        let lastP := match last_tx with
          | some t => orZero t.principal_balance
          | none => 0
        let lastI := match last_tx with
          | some t => orZero t.interest_balance
          | none => 0
        let lastF := match last_tx with
          | some t => orZero t.fees_balance
          | none => 0
        let lastPen := match last_tx with
          | some t => orZero t.penalties_balance
          | none => 0
        let transaction_date := settlement_paid_by_date
        let db6 :=
          if 0 < settlement_fee then
            insertTx db5
              { id := 0
                loan_id := loan_id
                repayment_schedule_id := none
                loan_transaction_type_id := 15
                amount := settlement_fee
                debit := some settlement_fee
                credit := none
                principal_repaid_derived := none
                interest_repaid_derived := none
                fees_repaid_derived := none
                principal_balance := some lastP
                interest_balance := some lastI
                fees_balance := some (lastF + settlement_fee)
                penalties_balance := some lastPen
                total_balance := some (lastP + lastI + (lastF + settlement_fee) + lastPen)
                created_at := transaction_date
                submitted_on := transaction_date
                branch_id := loan.branch_id
                loan_officer_id := loan.loan_officer_id
                description := "Apply Early Settlement Fee" }
          else db5
        let db7 :=
          if 0 < total_principal + settlement_fee then
            insertTx db6
              { id := 0
                loan_id := loan_id
                repayment_schedule_id := none
                loan_transaction_type_id := 14
                amount := total_principal + settlement_fee
                debit := none
                credit := some (total_principal + settlement_fee)
                principal_repaid_derived := some total_principal
                interest_repaid_derived := none
                fees_repaid_derived := some settlement_fee
                principal_balance := some 0
                interest_balance := some lastI
                fees_balance := some 0
                penalties_balance := some lastPen
                total_balance := some (0 + lastI + 0 + lastPen)
                created_at := transaction_date
                submitted_on := transaction_date
                branch_id := loan.branch_id
                loan_officer_id := loan.loan_officer_id
                description := "Early settlement" }
          else db6
        let db8 :=
          if 0 < total_interest then
            insertTx db7
              { id := 0
                loan_id := loan_id
                repayment_schedule_id := none
                loan_transaction_type_id := 4
                amount := total_interest
                debit := none
                credit := some total_interest
                principal_repaid_derived := none
                interest_repaid_derived := some total_interest
                fees_repaid_derived := none
                principal_balance := some 0
                interest_balance := some 0
                fees_balance := some 0
                penalties_balance := some lastPen
                total_balance := some 0
                created_at := transaction_date
                submitted_on := transaction_date
                branch_id := loan.branch_id
                loan_officer_id := loan.loan_officer_id
                description := "Waive Interest" }
          else db7
        let db9 := { db8 with loans := db8.loans.map (fun (l : Loan) =>
          if l.id = loan_id then { l with status := "closed" } else l) }
        (⟨db9, db9⟩, ESOutcome.completed)

/-- The per-loan iteration of `settle_installments` (lines 262-274): each
matched loan is handled in turn on the same connection. -/
def settle_installments_loop (conn : Conn) (loan_ids : List ℕ) : Conn :=
  loan_ids.foldl (fun c lid => (handle_early_settlement c lid).1) conn

theorem foldl_pickBy_mem {α : Type} (f : α → α → Bool) :
    ∀ (l : List α) (acc : Option α) (s : α),
      l.foldl (pickBy f) acc = some s → s ∈ l ∨ acc = some s := by
  intro l
  induction l with
  | nil => intro acc s h; exact Or.inr h
  | cons i tl ih =>
      intro acc s h
      rcases ih (pickBy f acc i) s h with hmem | hacc
      · exact Or.inl (List.mem_cons_of_mem _ hmem)
      · cases acc with
        | none =>
            simp [pickBy] at hacc
            exact Or.inl (hacc ▸ List.mem_cons_self i tl)
        | some j =>
            simp only [pickBy] at hacc
            split at hacc
            · cases hacc
              exact Or.inl (List.mem_cons_self _ _)
            · exact Or.inr hacc

theorem foldl_pickMax_le :
    ∀ (l : List Installment) (acc : Option Installment) (s : Installment),
      l.foldl (pickBy (fun i j => j.installment < i.installment)) acc = some s →
      (∀ i ∈ l, i.installment ≤ s.installment) ∧
        (∀ j, acc = some j → j.installment ≤ s.installment) := by
  intro l
  induction l with
  | nil =>
      intro acc s h
      refine ⟨by simp, ?_⟩
      intro j hj
      rw [hj] at h
      simp at h
      rw [h]
  | cons i tl ih =>
      intro acc s h
      obtain ⟨htl, hacc⟩ := ih (pickBy (fun i j => j.installment < i.installment) acc i) s h
      have hi : i.installment ≤ s.installment := by
        cases acc with
        | none => exact hacc i rfl
        | some j =>
            simp only [pickBy] at hacc
            by_cases hlt : j.installment < i.installment
            · exact hacc i (by simp [hlt])
            · exact le_trans (by omega) (hacc j (by simp [hlt]))
      refine ⟨?_, ?_⟩
      · intro x hx
        rcases List.mem_cons.mp hx with rfl | hx
        · exact hi
        · exact htl x hx
      · intro j hj
        cases acc with
        | none => cases hj
        | some k =>
            cases hj
            simp only [pickBy] at hacc
            by_cases hlt : j.installment < i.installment
            · exact le_trans (le_of_lt hlt) (hacc i (by simp [hlt]))
            · exact hacc j (by simp [hlt])

theorem lastInstallment_mem (l : List Installment) (s : Installment)
    (h : lastInstallment l = some s) : s ∈ l := by
  rcases foldl_pickBy_mem _ l none s h with hm | hacc
  · exact hm
  · cases hacc

theorem lastInstallment_max (l : List Installment) (s : Installment)
    (h : lastInstallment l = some s) :
    ∀ i ∈ l, i.installment ≤ s.installment :=
  (foldl_pickMax_le l none s h).1

theorem firstUnpaid_mem (l : List Installment) (u : Installment)
    (h : firstUnpaid l = some u) :
    u ∈ l ∧ instOutstanding u > 0 := by
  rcases foldl_pickBy_mem _ _ none u h with hm | hacc
  · have := List.mem_filter.mp hm
    exact ⟨this.1, by simpa using this.2⟩
  · cases hacc

theorem installments_insertTx_ite (c : Prop) [Decidable c] (db : DB)
    (t : DbTx) : (if c then insertTx db t else db).installments =
      db.installments := by
  split <;> rfl

theorem loans_insertTx_ite (c : Prop) [Decidable c] (db : DB) (t : DbTx) :
    (if c then insertTx db t else db).loans = db.loans := by
  split <;> rfl

theorem length_filter_ne_id (sid : ℕ) :
    ∀ (l : List Installment), (l.map Installment.id).Nodup →
      (∃ x ∈ l, x.id = sid) →
      (l.filter (fun i => i.id ≠ sid)).length = l.length - 1 := by
  intro l
  induction l with
  | nil => intro _ h; simp at h
  | cons x tl ih =>
      intro hnd hmem
      have hnd' : (tl.map Installment.id).Nodup := by
        simpa using (List.nodup_cons.mp (by simpa using hnd)).2
      have hxid : x.id ∉ tl.map Installment.id :=
        (List.nodup_cons.mp (by simpa using hnd)).1
      by_cases hx : x.id = sid
      · have hall : ∀ i ∈ tl, ¬ i.id = sid := by
          intro i hi hc
          apply hxid
          rw [hx, ← hc]
          exact List.mem_map_of_mem _ hi
        have hfl : tl.filter (fun i => i.id ≠ sid) = tl :=
          List.filter_eq_self.mpr (by
            intro a ha
            simpa using hall a ha)
        rw [List.filter_cons, if_neg (by simp [hx]), hfl]
        simp
      · have hmem' : ∃ y ∈ tl, y.id = sid := by
          rcases hmem with ⟨y, hy, hyid⟩
          rcases List.mem_cons.mp hy with rfl | hy'
          · exact absurd hyid hx
          · exact ⟨y, hy', hyid⟩
        have htl : 1 ≤ tl.length := by
          rcases hmem' with ⟨y, hy, -⟩
          exact List.length_pos_of_mem hy
        have hrec := ih hnd' hmem'
        rw [List.filter_cons, if_pos (by simp [hx] : decide (x.id ≠ sid) = true)]
        simp only [List.length_cons, hrec]
        omega

/-- C4 (amended): per-loan commit discipline of the early-settlement
engine.  A loan aborted because it has no installments (or no loan row)
leaves the connection entirely unchanged; a loan whose handling completes
has all its changes committed; but a loan aborted because no unpaid
installment exists has the transactions linked to its settlement
installment ALREADY DELETED in the pending (uncommitted) state — durable
state still unchanged, yet the deletion is neither committed nor rolled
back, so a later commit on the shared connection makes it durable
(`handle_early_settlement_abort_leaks_delete`).  The source's exception
arm does roll back, but the graceful no-unpaid abort does not. -/
theorem handle_early_settlement_commit_discipline (conn : Conn) (lid : ℕ) :
    ((handle_early_settlement conn lid).2 = ESOutcome.abortedNoInstallments →
      (handle_early_settlement conn lid).1 = conn) ∧
      ((handle_early_settlement conn lid).2 = ESOutcome.abortedNoUnpaid →
        (handle_early_settlement conn lid).1.durable = conn.durable ∧
        ∃ sid, (handle_early_settlement conn lid).1.pending =
          { conn.pending with transactions :=
              (conn.pending.transactions.filter
                (fun (t : DbTx) => t.repayment_schedule_id ≠ some sid)) }) ∧
      ((handle_early_settlement conn lid).2 = ESOutcome.completed →
        (handle_early_settlement conn lid).1.durable =
          (handle_early_settlement conn lid).1.pending) := by
  refine ⟨?_, ?_, ?_⟩ <;>
    · simp only [handle_early_settlement]
      split
      · intro h
        first | exact ESOutcome.noConfusion h | rfl | exact ⟨rfl, _, rfl⟩
      · split
        · intro h
          first | exact ESOutcome.noConfusion h | rfl | exact ⟨rfl, _, rfl⟩
        · split
          · intro h
            first | exact ESOutcome.noConfusion h | rfl | exact ⟨rfl, _, rfl⟩
          · intro h
            first | exact ESOutcome.noConfusion h | rfl | exact ⟨rfl, _, rfl⟩

/-- A fully paid installment of loan 1 (outstanding = 0). -/
def paidInst : Installment :=
  { id := 1, loan_id := 1, installment := 1
    principal := some 10, interest := some 2, fees := none, penalties := none
    principal_repaid_derived := some 10, interest_repaid_derived := some 2
    fees_repaid_derived := none, penalties_repaid_derived := none
    principal_written_off_derived := none, interest_written_off_derived := none
    fees_written_off_derived := none, penalties_written_off_derived := none
    interest_waived_derived := none, fees_waived_derived := none
    penalties_waived_derived := none
    paid_by_date := some 100, status := "closed", is_early_repayment := false }

/-- An open installment of loan 2 (outstanding = 12 > 0). -/
def openInst : Installment :=
  { id := 2, loan_id := 2, installment := 1
    principal := some 10, interest := some 2, fees := none, penalties := none
    principal_repaid_derived := none, interest_repaid_derived := none
    fees_repaid_derived := none, penalties_repaid_derived := none
    principal_written_off_derived := none, interest_written_off_derived := none
    fees_written_off_derived := none, penalties_written_off_derived := none
    interest_waived_derived := none, fees_waived_derived := none
    penalties_waived_derived := none
    paid_by_date := none, status := "active", is_early_repayment := false }

/-- Loan 1's repayment transaction, linked to its (only) installment. -/
def linkedTx : DbTx :=
  { id := 1, loan_id := 1, repayment_schedule_id := some 1
    loan_transaction_type_id := 2, amount := 12
    debit := none, credit := some 12
    principal_repaid_derived := some 10, interest_repaid_derived := some 2
    fees_repaid_derived := none
    principal_balance := some 0, interest_balance := some 0
    fees_balance := none, penalties_balance := some 0
    total_balance := some 0
    created_at := some 100, submitted_on := some 100
    branch_id := 1, loan_officer_id := 1, description := "Repayment" }

/-- Two migrated loans sharing one connection. -/
def esLoan1 : Loan :=
  { id := 1, loan_term := 6, status := "active"
    branch_id := 1, loan_officer_id := 1, external_id := 11 }

/-- The second loan on the connection (see `esLoan1`). -/
def esLoan2 : Loan :=
  { id := 2, loan_term := 6, status := "active"
    branch_id := 1, loan_officer_id := 1, external_id := 12 }

/-- Committed database state before the early-settlement run. -/
def esDb0 : DB :=
  { loans := [esLoan1, esLoan2]
    installments := [paidInst, openInst]
    transactions := [linkedTx]
    nextTxId := 2 }

/-- A freshly opened connection on `esDb0`. -/
def esConn0 : Conn := ⟨esDb0, esDb0⟩

/-- C4 counterexample: loan 1 aborts gracefully (all its installments are
paid, so no unpaid installment exists), yet its linked transaction has
already been deleted from the pending state without rollback; when loan 2
later completes and commits on the same connection, that deletion becomes
durable — the aborted loan's stored transactions are NOT left unchanged. -/
theorem handle_early_settlement_abort_leaks_delete :
    (handle_early_settlement esConn0 1).2 = ESOutcome.abortedNoUnpaid ∧
      linkedTx ∈ esConn0.durable.transactions ∧
      (handle_early_settlement esConn0 1).1.durable = esConn0.durable ∧
      linkedTx ∉ (handle_early_settlement esConn0 1).1.pending.transactions ∧
      (settle_installments_loop esConn0 [1, 2]).durable.transactions.filter
          (fun (t : DbTx) => t.loan_id = 1) = [] := by
  refine ⟨?_, ?_, ?_, ?_, ?_⟩ <;>
    norm_num [settle_installments_loop, handle_early_settlement, esConn0,
      esDb0, esLoan1, esLoan2, paidInst, openInst, linkedTx, lastInstallment,
      firstUnpaid, instOutstanding, orZero, pickBy, insertTx, lastTransaction]

/-- Witness for `handle_early_settlement_commit_discipline` at loan 1 of
the concrete connection `esConn0`. -/
theorem handle_early_settlement_commit_discipline_witness :
    (handle_early_settlement esConn0 1).2 = ESOutcome.abortedNoUnpaid ∧
      (handle_early_settlement esConn0 1).1.durable = esConn0.durable := by
  have houtcome : (handle_early_settlement esConn0 1).2 =
      ESOutcome.abortedNoUnpaid := by
    norm_num [handle_early_settlement, esConn0, esDb0, esLoan1, esLoan2,
      paidInst, openInst, linkedTx, lastInstallment, firstUnpaid,
      instOutstanding, orZero, pickBy, insertTx, lastTransaction]
  exact ⟨houtcome,
    ((handle_early_settlement_commit_discipline esConn0 1).2.1 houtcome).1⟩

/-- A loan whose only installment is unpaid: its first unpaid installment
IS its last installment. -/
def soloLoan : Loan :=
  { id := 5, loan_term := 6, status := "active"
    branch_id := 1, loan_officer_id := 1, external_id := 51 }

/-- The single (unpaid) installment of `soloLoan`. -/
def soloInst : Installment :=
  { id := 3, loan_id := 5, installment := 1
    principal := some 100, interest := some 10, fees := none, penalties := none
    principal_repaid_derived := none, interest_repaid_derived := none
    fees_repaid_derived := none, penalties_repaid_derived := none
    principal_written_off_derived := none, interest_written_off_derived := none
    fees_written_off_derived := none, penalties_written_off_derived := none
    interest_waived_derived := none, fees_waived_derived := none
    penalties_waived_derived := none
    paid_by_date := none, status := "active", is_early_repayment := false }

/-- Database holding just `soloLoan` and `soloInst`. -/
def soloDb : DB :=
  { loans := [soloLoan], installments := [soloInst]
    transactions := [], nextTxId := 1 }

/-- Connection opened on `soloDb`. -/
def soloConn : Conn := ⟨soloDb, soloDb⟩

/-- C5 counterexample: a loan with one installment, which is unpaid.  The
engine completes on it, yet afterwards NO installment of the loan has
`is_early_repayment = true`: the engine marks the first unpaid
installment and then deletes the settlement (last) installment, and here
they are the same row, so the marked row itself is deleted. -/
theorem early_settlement_marked_row_deleted :
    (soloDb.installments.filter
        (fun (i : Installment) => i.loan_id = 5)).length = 1 ∧
      firstUnpaid (soloDb.installments.filter
        (fun (i : Installment) => i.loan_id = 5)) = some soloInst ∧
      (handle_early_settlement soloConn 5).2 = ESOutcome.completed ∧
      (handle_early_settlement soloConn 5).1.pending.installments.filter
        (fun (i : Installment) => i.is_early_repayment) = [] := by
  refine ⟨?_, ?_, ?_, ?_⟩ <;>
    norm_num [handle_early_settlement, soloConn, soloDb, soloLoan, soloInst,
      lastInstallment, firstUnpaid, instOutstanding, orZero, pickBy,
      insertTx, lastTransaction]

/-- C5 (amended): for a loan whose settlement (last) installment exists,
whose first unpaid installment exists and is NOT the settlement
installment itself, and whose installment row ids are unique, the engine
completes and commits, the loan's term is decreased by exactly 1 and its
status set to "closed", exactly one installment row is removed — the one
with the highest sequence number — and the first unpaid installment
carries `is_early_repayment = true` with the settlement fee as `fees` and
`fees_repaid_derived`.  When the first unpaid installment IS the last
one, the marked row is itself deleted
(`early_settlement_marked_row_deleted`). -/
theorem handle_early_settlement_invariants (conn : Conn) (lid : ℕ)
    (loan : Loan) (settlement unpaid : Installment)
    (hloan : conn.pending.loans.find? (fun (l : Loan) => l.id = lid) = some loan)
    (hlast : lastInstallment (conn.pending.installments.filter
      (fun (i : Installment) => i.loan_id = lid)) = some settlement)
    (hfirst : firstUnpaid (conn.pending.installments.filter
      (fun (i : Installment) => i.loan_id = lid)) = some unpaid)
    (hne : unpaid.id ≠ settlement.id)
    (hnd : (conn.pending.installments.map Installment.id).Nodup) :
    (handle_early_settlement conn lid).2 = ESOutcome.completed ∧
      (handle_early_settlement conn lid).1.durable =
        (handle_early_settlement conn lid).1.pending ∧
      (∃ l ∈ (handle_early_settlement conn lid).1.pending.loans, l.id = lid) ∧
      (∀ l ∈ (handle_early_settlement conn lid).1.pending.loans, l.id = lid →
        ∃ l0 ∈ conn.pending.loans, l0.id = lid ∧
          l.loan_term = l0.loan_term - 1 ∧ l.status = "closed") ∧
      (handle_early_settlement conn lid).1.pending.installments.length =
        conn.pending.installments.length - 1 ∧
      (∀ i ∈ (handle_early_settlement conn lid).1.pending.installments,
        i.id ≠ settlement.id) ∧
      (∀ i ∈ conn.pending.installments, i.loan_id = lid →
        i.installment ≤ settlement.installment) ∧
      (∃ i ∈ (handle_early_settlement conn lid).1.pending.installments,
        i.id = unpaid.id ∧ i.is_early_repayment = true ∧
          i.fees = some (orZero settlement.interest) ∧
          i.fees_repaid_derived = some (orZero settlement.interest)) := by
  have hsmem : settlement ∈ conn.pending.installments :=
    List.mem_of_mem_filter (lastInstallment_mem _ _ hlast)
  have humemf := (firstUnpaid_mem _ _ hfirst).1
  have humem : unpaid ∈ conn.pending.installments :=
    List.mem_of_mem_filter humemf
  have huln : unpaid.loan_id = lid := by
    simpa using List.of_mem_filter humemf
  have hloanmem : loan ∈ conn.pending.loans :=
    List.mem_of_find?_eq_some hloan
  have hloanid : loan.id = lid := by
    simpa using List.find?_some hloan
  simp only [handle_early_settlement, hloan, hlast, hfirst,
    installments_insertTx_ite, loans_insertTx_ite]
  refine ⟨trivial, trivial, ?_, ?_, ?_, ?_, ?_, ?_⟩
  · -- a loan row with this id survives to the final state
    refine ⟨_, List.mem_map_of_mem _ (List.mem_map_of_mem _ hloanmem), ?_⟩
    by_cases h0 : loan.id = lid <;> simp [h0, hloanid]
  · -- every final loan row with this id is the closed, decremented update
    intro l hl hlid
    obtain ⟨l1, hl1, rfl⟩ := List.mem_map.mp hl
    obtain ⟨l0, hl0, rfl⟩ := List.mem_map.mp hl1
    by_cases h0 : l0.id = lid
    · refine ⟨l0, hl0, h0, ?_, ?_⟩ <;> simp [h0]
    · exfalso
      apply h0
      simpa [h0] using hlid
  · -- exactly one installment row is removed
    rw [List.length_map]
    have hmapid : (conn.pending.installments.map (fun (i : Installment) =>
        if i.id = unpaid.id then
          { i with fees := some (orZero settlement.interest)
                   fees_repaid_derived := some (orZero settlement.interest)
                   is_early_repayment := true }
        else i)).map Installment.id =
        conn.pending.installments.map Installment.id := by
      rw [List.map_map]
      refine List.map_congr_left ?_
      intro i _
      by_cases h0 : i.id = unpaid.id <;> simp [h0]
    rw [length_filter_ne_id settlement.id _ (by rw [hmapid]; exact hnd)
      ⟨_, List.mem_map_of_mem _ hsmem, by
        by_cases h0 : settlement.id = unpaid.id <;> simp [h0]⟩]
    rw [List.length_map]
  · -- no surviving row carries the settlement installment's id
    intro i hi
    obtain ⟨j, hj, rfl⟩ := List.mem_map.mp hi
    have hjne : j.id ≠ settlement.id := by
      simpa using List.of_mem_filter hj
    by_cases h0 : j.loan_id = lid ∧ unpaid.id ≤ j.id <;> simpa [h0] using hjne
  · -- the removed row has the maximal sequence number
    intro i hi hlid
    exact lastInstallment_max _ _ hlast i
      (List.mem_filter.mpr ⟨hi, by simpa using hlid⟩)
  · -- the first unpaid installment survives, marked and carrying the fee
    refine ⟨_, List.mem_map_of_mem _ (List.mem_filter.mpr
      ⟨List.mem_map_of_mem _ humem, ?_⟩), ?_⟩
    · simp [hne]
    · by_cases h0 : unpaid.loan_id = lid ∧ unpaid.id ≤ unpaid.id <;>
        simp [h0, huln]

/-- A loan with two installments, both unpaid, so the first unpaid row
differs from the settlement (last) row. -/
def twoLoan : Loan :=
  { id := 7, loan_term := 6, status := "active"
    branch_id := 1, loan_officer_id := 1, external_id := 71 }

/-- First (unpaid) installment of `twoLoan`. -/
def instA : Installment :=
  { id := 10, loan_id := 7, installment := 1
    principal := some 50, interest := some 5, fees := none, penalties := none
    principal_repaid_derived := none, interest_repaid_derived := none
    fees_repaid_derived := none, penalties_repaid_derived := none
    principal_written_off_derived := none, interest_written_off_derived := none
    fees_written_off_derived := none, penalties_written_off_derived := none
    interest_waived_derived := none, fees_waived_derived := none
    penalties_waived_derived := none
    paid_by_date := none, status := "active", is_early_repayment := false }

/-- Second (last, unpaid) installment of `twoLoan`. -/
def instB : Installment :=
  { instA with id := 11, installment := 2 }

/-- Database holding `twoLoan` with its two installments. -/
def twoDb : DB :=
  { loans := [twoLoan], installments := [instA, instB]
    transactions := [], nextTxId := 1 }

/-- Connection opened on `twoDb`. -/
def twoConn : Conn := ⟨twoDb, twoDb⟩

/-- Witness for `handle_early_settlement_invariants` at the two-row loan
`twoLoan`. -/
theorem handle_early_settlement_invariants_witness :
    firstUnpaid (twoDb.installments.filter
        (fun (i : Installment) => i.loan_id = 7)) = some instA ∧
      instA.id ≠ instB.id ∧
      (handle_early_settlement twoConn 7).2 = ESOutcome.completed := by
  have hfirst : firstUnpaid (twoDb.installments.filter
      (fun (i : Installment) => i.loan_id = 7)) = some instA := by
    norm_num [firstUnpaid, instOutstanding, orZero, twoDb, instA, instB,
      pickBy]
  refine ⟨hfirst, by decide, ?_⟩
  exact (handle_early_settlement_invariants twoConn 7 twoLoan instB instA
    (by decide) (by decide) hfirst (by decide) (by decide)).1

end Widepay
